import Mathlib

set_option maxHeartbeats 1000000
set_option maxRecDepth 10000

/-!
Verification of the `aoc` runner library (ArmandDu/rust-aoc-runner).

The embedding translates `src/src/aoc/solution.rs` (the `Solution` trait, its
default runners `run` / `run_par`, the test helpers `test_part1` / `test_part2`,
the default `get_input`, the `Display` instance of `SolutionResult`) and the
example puzzle `src/examples/aoc_2020_day01.rs`.

Modelling conventions:
- `std::time::Duration` values are natural numbers (nanosecond counts); the
  wall-clock measurements of the `time!` macro are not derivable in a pure
  embedding, so every runner takes the measured durations as parameters.
- `std::io::Error` is represented by its message string.
- The filesystem behind `std::fs::read_to_string` is a parameter
  `fs : String → Except String String` mapping a path to either the file
  content or an I/O error.
- A thread spawned by `run_par` either completes normally — in which case it
  returns exactly `time!(part_i(&input))`, i.e. the pure answer together with a
  measured duration — or terminates abnormally (panic), in which case its
  `join` yields an error.  `WorkerOutcome` captures this choice per worker.
- Each runner additionally returns the trace of contract-method invocations it
  performs (`Event`), in order, with the `parse` event carrying the exact
  string argument passed to `parse`.  This makes claims such as "`parse` is
  invoked exactly once" or "`part1` is never invoked" statable.
-/

namespace AocRunner

/-- Error enum of `src/src/aoc/solution.rs` (`SolutionError`): `ParseError`,
`PuzzleInput(std::io::Error)` (the wrapped I/O error is modelled by its
message) and `Run`. -/
inductive SolutionError where
  | ParseError : SolutionError
  | PuzzleInput : String → SolutionError
  | Run : SolutionError
  deriving DecidableEq, Repr

/-- Record produced by the runners (`SolutionResult<P1, P2>` in
`src/src/aoc/solution.rs`): title, day, the two optional answers and the three
measured durations. -/
structure SolutionResult (P1 P2 : Type) where
  title : String
  day : Nat
  part1 : Option P1
  part2 : Option P2
  parse_duration : Nat
  part1_duration : Nat
  part2_duration : Nat
  deriving DecidableEq, Repr

/-- The `Solution` trait of `src/src/aoc/solution.rs`, as a record: constants
`TITLE` and `DAY`, the per-day functions `parse`, `part1`, `part2`, and the
overridable input source `get_input`.  As in the Rust source, `parse` and
`get_input` may fail with any `SolutionError`. -/
structure Solution (Input P1 P2 : Type) where
  TITLE : String
  DAY : Nat
  parse : String → Except SolutionError Input
  part1 : Input → Option P1
  part2 : Input → Option P2
  get_input : Except SolutionError String

/-- Trace of the contract-method invocations a runner performs.  The `parse`
event records the exact string handed to `Solution::parse`. -/
inductive Event where
  | input : Event
  | parse : String → Event
  | part1 : Event
  | part2 : Event
  deriving DecidableEq, Repr

/-- Fate of one worker thread spawned by `run_par`: it either terminates
abnormally (its `join` returns `Err`) or completes, returning the timed result
of the phase with the measured duration `t`. -/
inductive WorkerOutcome where
  | panic : WorkerOutcome
  | completes : Nat → WorkerOutcome
  deriving DecidableEq, Repr

/-- Sequential runner `Solution::run` (src/src/aoc/solution.rs lines 436-452):
`get_input()?`, then `parse(&input)?` timed, then `part1(&input)` timed, then
`part2(&input)` timed, assembling a `SolutionResult`.  `tp`, `t1`, `t2` are the
durations measured by the three `time!` brackets.  Also returns the invocation
trace. -/
def run {Input P1 P2 : Type} (S : Solution Input P1 P2) (tp t1 t2 : Nat) :
    Except SolutionError (SolutionResult P1 P2) × List Event :=
  match S.get_input with
  | Except.error e => (Except.error e, [Event.input])
  | Except.ok raw =>
    match S.parse raw with
    | Except.error e => (Except.error e, [Event.input, Event.parse raw])
    | Except.ok inp =>
      (Except.ok
        { title := S.TITLE
          day := S.DAY
          part1 := S.part1 inp
          part2 := S.part2 inp
          parse_duration := tp
          part1_duration := t1
          part2_duration := t2 },
       [Event.input, Event.parse raw, Event.part1, Event.part2])

/-- Concurrent runner `Solution::run_par` (src/src/aoc/solution.rs lines
493-521): `get_input()?`, `parse(&input)?` timed, then two workers are spawned
inside a crossbeam scope, each computing `time!(part_i(&input))`; both are
joined and the pair of join results is matched: `(Ok, Ok)` assembles the
`SolutionResult`, anything else is `Err(SolutionError::Run)`.  `o1`/`o2` give
each worker's fate; a completing worker returns the pure answer together with
its measured duration. -/
def run_par {Input P1 P2 : Type} (S : Solution Input P1 P2) (tp : Nat)
    (o1 o2 : WorkerOutcome) :
    Except SolutionError (SolutionResult P1 P2) × List Event :=
  match S.get_input with
  | Except.error e => (Except.error e, [Event.input])
  | Except.ok raw =>
    match S.parse raw with
    | Except.error e => (Except.error e, [Event.input, Event.parse raw])
    | Except.ok inp =>
      let res : Except SolutionError (SolutionResult P1 P2) :=
        match o1, o2 with
        | WorkerOutcome.completes d1, WorkerOutcome.completes d2 =>
          Except.ok
            { title := S.TITLE
              day := S.DAY
              part1 := S.part1 inp
              part2 := S.part2 inp
              parse_duration := tp
              part1_duration := d1
              part2_duration := d2 }
        | _, _ => Except.error SolutionError.Run
      (res, [Event.input, Event.parse raw, Event.part1, Event.part2])

/-- Test helper `Solution::test_part1` (src/src/aoc/solution.rs lines
295-307): parses the given raw string (`parse(input)?` timed), runs `part1`
timed, and returns the answer with the combined duration `time + parse_time`.
The `println!` side effect is not modelled. -/
def test_part1 {Input P1 P2 : Type} (S : Solution Input P1 P2) (raw : String)
    (tp t1 : Nat) :
    Except SolutionError (Option P1 × Nat) × List Event :=
  match S.parse raw with
  | Except.error e => (Except.error e, [Event.parse raw])
  | Except.ok inp => (Except.ok (S.part1 inp, t1 + tp), [Event.parse raw, Event.part1])

/-- Test helper `Solution::test_part2` (src/src/aoc/solution.rs lines
353-365), the `part2` analogue of `test_part1`. -/
def test_part2 {Input P1 P2 : Type} (S : Solution Input P1 P2) (raw : String)
    (tp t2 : Nat) :
    Except SolutionError (Option P2 × Nat) × List Event :=
  match S.parse raw with
  | Except.error e => (Except.error e, [Event.parse raw])
  | Except.ok inp => (Except.ok (S.part2 inp, t2 + tp), [Event.parse raw, Event.part2])

/-- Rust `format!("{:02}", n)`: the decimal representation of `n` left-padded
with zeros to a minimum width of two. -/
def pad2 (n : Nat) : String :=
  if n < 10 then "0" ++ Nat.repr n else Nat.repr n

/-- The conventional input path built by the default `Solution::get_input`
(src/src/aoc/solution.rs line 386): `format!("inputs/DAY_{:02}.txt", Self::DAY)`. -/
def default_input_path (day : Nat) : String :=
  "inputs/DAY_" ++ pad2 day ++ ".txt"

/-- Default `Solution::get_input` (src/src/aoc/solution.rs lines 385-390):
`std::fs::read_to_string(&path)?` on the conventional path, the `?` converting
an I/O error into `SolutionError::PuzzleInput` via the `#[from]` conversion.
The filesystem is the parameter `fs`. -/
def default_get_input (fs : String → Except String String) (day : Nat) :
    Except SolutionError String :=
  match fs (default_input_path day) with
  | Except.error e => Except.error (SolutionError.PuzzleInput e)
  | Except.ok s => Except.ok s

/-- Escaping of a single character performed by Rust's `Debug` formatting of a
string (`format!("{:?}", s)`): backslash, quote, newline, carriage return and
tab are escaped; other printable characters are kept as-is (escaping of other
control characters is not modelled, no title uses them). -/
def rustDebugChar (c : Char) : String :=
  if c = '\\' then "\\\\"
  else if c = '"' then "\\\""
  else if c = '\n' then "\\n"
  else if c = '\r' then "\\r"
  else if c = '\t' then "\\t"
  else String.singleton c

/-- Rust `format!("{:?}", s)` for a string: the escaped characters wrapped in
double quotes. -/
def rustDebugStr (s : String) : String :=
  "\"" ++ String.join (s.toList.map rustDebugChar) ++ "\""

/-- Heading built by `impl Display for SolutionResult` (src/src/aoc/solution.rs
lines 40-45): the line `"Day {:02}: {:?}"` framed by two separator lines of
`title.len() + 2` equals signs (the inclusive range `0..=(title.len() + 1)` has
`title.len() + 2` elements). -/
def display_heading {P1 P2 : Type} (r : SolutionResult P1 P2) : String :=
  let titleLine := "Day " ++ pad2 r.day ++ ": " ++ rustDebugStr r.title
  let sep := String.mk (List.replicate (titleLine.length + 2) '=')
  sep ++ "\n " ++ titleLine ++ "\n" ++ sep

/-- `impl Display for SolutionResult` (src/src/aoc/solution.rs lines 38-82).
`s1`/`s2` render the answers (the `Display` bounds on `P1`/`P2`), `fd` renders
a duration (`humantime::format_duration`, an external crate, kept abstract).
The three `write!` arms mirror the source's `match (&self.part1, &self.part2)`:
`(Some, Some)`, `(Some(p1), _)` and the catch-all `_`. -/
def display {P1 P2 : Type} (s1 : P1 → String) (s2 : P2 → String)
    (fd : Nat → String) (r : SolutionResult P1 P2) : String :=
  match r.part1, r.part2 with
  | some p1, some p2 =>
    display_heading r ++ "\nPart 1: \x27" ++ s1 p1 ++ "\x27\nPart 2: \x27" ++ s2 p2 ++
      "\x27\n----\nTime1:\t\t" ++ fd r.part1_duration ++
      "\nTime2:\t\t" ++ fd r.part2_duration ++
      "\nParse Time:\t" ++ fd r.parse_duration ++
      "\nTotal Time:\t" ++ fd (r.part1_duration + r.part2_duration + r.parse_duration)
  | some p1, none =>
    display_heading r ++ "\nPart 1: \x27" ++ s1 p1 ++
      "\x27\n----\nTime1:\t\t" ++ fd r.part1_duration ++
      "\nParse Time:\t" ++ fd r.parse_duration ++
      "\nTotal Time:\t" ++ fd (r.part1_duration + r.parse_duration)
  | none, _ =>
    display_heading r ++ "\n  " ++ fd r.parse_duration ++ "\tParsing time"

/-- Recursion core of Rust `str::lines()` over the character sequence: `acc`
holds the current line's characters in reverse.  At every `\n` the current
line is emitted, with one `\r` immediately preceding the `\n` stripped; a
final segment without terminating newline is emitted as-is (no `\r`
stripping), and a trailing newline produces no final empty line. -/
def linesGo : List Char → List Char → List String
  | [], acc => if acc.isEmpty then [] else [String.mk acc.reverse]
  | c :: rest, acc =>
    if c = '\n' then
      (match acc with
       | '\r' :: acc2 => String.mk acc2.reverse
       | _ => String.mk acc.reverse) :: linesGo rest []
    else linesGo rest (c :: acc)

/-- Rust `str::lines()`: split at every newline, treating `\r\n` as a line
break too, without producing a final empty line for a trailing newline. -/
def rustLines (s : String) : List String :=
  linesGo s.toList []

/-- Rust `str::parse::<usize>()`, returning `none` exactly when Rust returns
`Err`: an optional leading `+` sign followed by at least one ASCII digit, with
the value required to fit in 64 bits (`usize` on the library's 64-bit
targets). -/
def parseUsize (s : String) : Option Nat :=
  let ds := match s.toList with
    | '+' :: rest => rest
    | cs => cs
  if ds = [] then none
  else if ds.all (fun c => c.isDigit) then
    let v := ds.foldl (fun acc c => acc * 10 + (c.toNat - '0'.toNat)) 0
    if v < 2 ^ 64 then some v else none
  else none

/-- `Day01::parse` of `src/examples/aoc_2020_day01.rs` (lines 17-19):
`Ok(input.lines().filter_map(|line| line.parse().ok()).collect())`. -/
def day01_parse (s : String) : Except SolutionError (List Nat) :=
  Except.ok ((rustLines s).filterMap parseUsize)

/-- Sample contract implementation whose `parse` is the identity on strings
and whose phases echo the parsed input, with input `" a "` carrying
surrounding whitespace; used to observe the exact string the runners hand to
`parse`. -/
def echoSol : Solution String String String :=
  { TITLE := "Echo"
    DAY := 1
    parse := fun s => Except.ok s
    part1 := fun s => some s
    part2 := fun s => some s
    get_input := Except.ok " a " }

/-- Sample contract implementation whose `get_input` fails with
`SolutionError::PuzzleInput` (a missing input file). -/
def noInputSol : Solution String String String :=
  { TITLE := "NoInput"
    DAY := 2
    parse := fun s => Except.ok s
    part1 := fun s => some s
    part2 := fun s => some s
    get_input := Except.error (SolutionError.PuzzleInput "missing") }

/-- Sample contract implementation whose `parse` always fails with
`SolutionError::ParseError`. -/
def parseFailSol : Solution String Nat Nat :=
  { TITLE := "ParseFail"
    DAY := 3
    parse := fun _ => Except.error SolutionError.ParseError
    part1 := fun _ => some 1
    part2 := fun _ => some 2
    get_input := Except.ok "x" }

/-- Sample contract implementation (type-correct in Rust as well) whose
`parse` returns `Err(SolutionError::Run)` — the `Result<Self::Input>` alias
permits every `SolutionError` variant. -/
def runErrSol : Solution String String String :=
  { TITLE := "RunErr"
    DAY := 4
    parse := fun _ => Except.error SolutionError.Run
    part1 := fun s => some s
    part2 := fun s => some s
    get_input := Except.ok "" }

/-- Sample contract implementation whose `part1` answers `none` (the Demo
solution of `src/src/aoc/macro.rs` answers `None` for part 1 as well). -/
def nonePart1Sol : Solution String String Nat :=
  { TITLE := "Demo"
    DAY := 0
    parse := fun s => Except.ok s
    part1 := fun _ => none
    part2 := fun _ => some 123
    get_input := Except.ok "" }

/-- Sample `SolutionResult` with both answers present. -/
def sampleBoth : SolutionResult Nat Nat :=
  { title := "Demo"
    day := 2
    part1 := some 3
    part2 := some 4
    parse_duration := 10
    part1_duration := 20
    part2_duration := 30 }

/-- Sample `SolutionResult` with `part1` absent and `part2` present. -/
def sampleOnly2 : SolutionResult Nat Nat :=
  { title := "T"
    day := 1
    part1 := none
    part2 := some 7
    parse_duration := 3
    part1_duration := 4
    part2_duration := 5 }

/-- Number of `parse` invocations recorded in a trace. -/
def parse_count (tr : List Event) : Nat :=
  tr.countP (fun e =>
    match e with
    | Event.parse _ => true
    | _ => false)

/-- Boolean test that `pat` occurs as a leading segment of `s`. -/
def leadSeg : List Char → List Char → Bool
  | [], _ => true
  | _ :: _, [] => false
  | a :: as, b :: bs => a == b && leadSeg as bs

/-- Boolean test that `pat` occurs as a contiguous segment of `s`. -/
def hasSeg (pat : List Char) : List Char → Bool
  | [] => leadSeg pat []
  | b :: bs => leadSeg pat (b :: bs) || hasSeg pat bs

/-- Boolean substring test on strings. -/
def strHasSub (s pat : String) : Bool :=
  hasSeg pat.toList s.toList

/-- Decimal value of a digit string, as read by Rust's integer parsing. -/
def digitsVal (cs : List Char) : Nat :=
  cs.foldl (fun a c => a * 10 + (c.toNat - '0'.toNat)) 0

/-- Claim C1: for every contract implementation with pure, panic-free phases
and every input on which `parse` succeeds, the sequential runner `run` and the
concurrent runner `run_par` (with both workers completing) produce result
aggregates with identical `part1` and `part2` answer values, whatever the
measured durations are. -/
theorem run_run_par_same_answers {Input P1 P2 : Type}
    (S : Solution Input P1 P2) (tp t1 t2 tq u1 u2 : Nat) (raw : String) (inp : Input)
    (hg : S.get_input = Except.ok raw) (hp : S.parse raw = Except.ok inp) :
    ∃ r1 r2, (run S tp t1 t2).1 = Except.ok r1 ∧
      (run_par S tq (WorkerOutcome.completes u1) (WorkerOutcome.completes u2)).1 =
        Except.ok r2 ∧
      r1.part1 = r2.part1 ∧ r1.part2 = r2.part2 := by
  have h1 : (run S tp t1 t2).1 =
      Except.ok { title := S.TITLE, day := S.DAY, part1 := S.part1 inp,
                  part2 := S.part2 inp, parse_duration := tp,
                  part1_duration := t1, part2_duration := t2 } := by
    simp [run, hg, hp]
  have h2 : (run_par S tq (WorkerOutcome.completes u1) (WorkerOutcome.completes u2)).1 =
      Except.ok { title := S.TITLE, day := S.DAY, part1 := S.part1 inp,
                  part2 := S.part2 inp, parse_duration := tq,
                  part1_duration := u1, part2_duration := u2 } := by
    simp [run_par, hg, hp]
  exact ⟨_, _, h1, h2, rfl, rfl⟩

/-- Witness for C1: the `Echo` sample solution, whose `parse` succeeds on its
input `" a "`, gets identical answers from both runners. -/
theorem run_run_par_same_answers_w :
    ∃ r1 r2, (run echoSol 0 0 0).1 = Except.ok r1 ∧
      (run_par echoSol 0 (WorkerOutcome.completes 0) (WorkerOutcome.completes 0)).1 =
        Except.ok r2 ∧
      r1.part1 = r2.part1 ∧ r1.part2 = r2.part2 :=
  run_run_par_same_answers echoSol 0 0 0 0 0 0 " a " " a " rfl rfl

/-- Claim C2: in `run_par`, once input acquisition and parsing have succeeded,
a panicking worker (either one) makes the whole invocation resolve to
`SolutionError.Run` with no answer observable, while two normally completing
workers always yield `Ok` — even when a phase's logical answer is `none`,
since the aggregate then simply carries `none` for that phase. -/
theorem run_par_fail_fast {Input P1 P2 : Type} (S : Solution Input P1 P2)
    (tp : Nat) (o1 o2 : WorkerOutcome) (raw : String) (inp : Input)
    (hg : S.get_input = Except.ok raw) (hp : S.parse raw = Except.ok inp) :
    ((o1 = WorkerOutcome.panic ∨ o2 = WorkerOutcome.panic) →
        (run_par S tp o1 o2).1 = Except.error SolutionError.Run) ∧
    (∀ d1 d2, o1 = WorkerOutcome.completes d1 → o2 = WorkerOutcome.completes d2 →
        (run_par S tp o1 o2).1 =
          Except.ok { title := S.TITLE, day := S.DAY, part1 := S.part1 inp,
                      part2 := S.part2 inp, parse_duration := tp,
                      part1_duration := d1, part2_duration := d2 }) := by
  constructor
  · intro h
    cases o1 with
    | panic => simp [run_par, hg, hp]
    | completes d =>
      cases o2 with
      | panic => simp [run_par, hg, hp]
      | completes d2 => rcases h with h | h <;> exact WorkerOutcome.noConfusion h
  · rintro d1 d2 rfl rfl
    simp [run_par, hg, hp]

/-- Witness for C2: the `Demo` sample solution (whose `part1` answers `none`),
with worker 1 panicking and worker 2 completing. -/
theorem run_par_fail_fast_w :
    ((WorkerOutcome.panic = WorkerOutcome.panic ∨
        WorkerOutcome.completes 3 = WorkerOutcome.panic) →
      (run_par nonePart1Sol 5 WorkerOutcome.panic (WorkerOutcome.completes 3)).1 =
        Except.error SolutionError.Run) ∧
    (∀ d1 d2, WorkerOutcome.panic = WorkerOutcome.completes d1 →
        WorkerOutcome.completes 3 = WorkerOutcome.completes d2 →
        (run_par nonePart1Sol 5 WorkerOutcome.panic (WorkerOutcome.completes 3)).1 =
          Except.ok { title := nonePart1Sol.TITLE, day := nonePart1Sol.DAY,
                      part1 := nonePart1Sol.part1 "", part2 := nonePart1Sol.part2 "",
                      parse_duration := 5, part1_duration := d1, part2_duration := d2 }) :=
  run_par_fail_fast nonePart1Sol 5 WorkerOutcome.panic (WorkerOutcome.completes 3) "" "" rfl rfl

/-- Claim C3: whenever an error occurs during an invocation, it propagates
immediately and no solving phase is invoked.  For `run` and `run_par`: a
`get_input` error, or a `parse` error after successful acquisition, is
returned as-is, and the invocation trace shows that `part1` and `part2` were
never invoked.  For `test_part1` and `test_part2` (which take the raw input
directly and never call `get_input`): a `parse` error is returned as-is with
neither solving phase invoked. -/
theorem errors_short_circuit {Input P1 P2 : Type} (S : Solution Input P1 P2) :
    (∀ e, S.get_input = Except.error e → ∀ tp t1 t2 o1 o2,
        run S tp t1 t2 = (Except.error e, [Event.input]) ∧
        run_par S tp o1 o2 = (Except.error e, [Event.input])) ∧
    (∀ raw e, S.get_input = Except.ok raw → S.parse raw = Except.error e →
        ∀ tp t1 t2 o1 o2,
        run S tp t1 t2 = (Except.error e, [Event.input, Event.parse raw]) ∧
        run_par S tp o1 o2 = (Except.error e, [Event.input, Event.parse raw])) ∧
    (∀ raw e, S.parse raw = Except.error e → ∀ tp td,
        test_part1 S raw tp td = (Except.error e, [Event.parse raw]) ∧
        test_part2 S raw tp td = (Except.error e, [Event.parse raw])) := by
  refine ⟨fun e hg tp t1 t2 o1 o2 => ⟨?_, ?_⟩,
          fun raw e hg hp tp t1 t2 o1 o2 => ⟨?_, ?_⟩,
          fun raw e hp tp td => ⟨?_, ?_⟩⟩ <;>
    simp [run, run_par, test_part1, test_part2, *]

/-- Witness for C3: the sample solution with a missing input file makes `run`
surface `PuzzleInput` untouched with neither phase invoked, and the sample
solution with a failing `parse` makes `test_part1` surface `ParseError`
untouched with `part1` never invoked. -/
theorem errors_short_circuit_w :
    run noInputSol 0 0 0 = (Except.error (SolutionError.PuzzleInput "missing"), [Event.input]) ∧
    test_part1 parseFailSol "x" 0 0 = (Except.error SolutionError.ParseError, [Event.parse "x"]) :=
  ⟨((errors_short_circuit noInputSol).1 (SolutionError.PuzzleInput "missing") rfl
      0 0 0 WorkerOutcome.panic WorkerOutcome.panic).1,
   ((errors_short_circuit parseFailSol).2.2 "x" SolutionError.ParseError rfl 0 0).1⟩

/-- Claim C9: if input acquisition and parsing succeed and neither worker
panics, `run_par` returns `Ok` — the `SolutionError.Run` branch is not taken —
and the aggregate carries exactly the answers computed by `part1` and `part2`
on the parsed input, together with the two workers' measured durations and the
parse duration. -/
theorem run_par_no_panic_ok {Input P1 P2 : Type} (S : Solution Input P1 P2)
    (tp d1 d2 : Nat) (raw : String) (inp : Input)
    (hg : S.get_input = Except.ok raw) (hp : S.parse raw = Except.ok inp) :
    (run_par S tp (WorkerOutcome.completes d1) (WorkerOutcome.completes d2)).1 =
      Except.ok { title := S.TITLE, day := S.DAY, part1 := S.part1 inp,
                  part2 := S.part2 inp, parse_duration := tp,
                  part1_duration := d1, part2_duration := d2 } := by
  simp [run_par, hg, hp]

/-- Witness for C9: the `Demo` sample solution with both workers completing
yields the aggregate with its computed answers and the given durations. -/
theorem run_par_no_panic_ok_w :
    (run_par nonePart1Sol 1 (WorkerOutcome.completes 2) (WorkerOutcome.completes 3)).1 =
      Except.ok { title := "Demo", day := 0, part1 := none, part2 := some 123,
                  parse_duration := 1, part1_duration := 2, part2_duration := 3 } :=
  run_par_no_panic_ok nonePart1Sol 1 2 3 "" "" rfl rfl

/-- Helper for C4: over the `u8` range of `DAY`, the `{:02}` formatting yields
an all-digit string of length at least two whose decimal value is the day
itself. -/
theorem pad2_ok : ∀ n, n < 256 →
    2 ≤ (pad2 n).toList.length ∧
    (pad2 n).toList.all (fun c => c.isDigit) = true ∧
    digitsVal (pad2 n).toList = n := by
  decide

/-- Claim C4: the default `get_input` reads the file at
`inputs/DAY_<NN>.txt`, `<NN>` being the day zero-padded to (at least) two
decimal digits, returns the content on success, and wraps a failing read's
underlying I/O error in `SolutionError.PuzzleInput`. -/
theorem default_get_input_spec (fs : String → Except String String) (day : Nat)
    (hday : day < 256) :
    default_input_path day = "inputs/DAY_" ++ pad2 day ++ ".txt" ∧
    2 ≤ (pad2 day).toList.length ∧
    (pad2 day).toList.all (fun c => c.isDigit) = true ∧
    digitsVal (pad2 day).toList = day ∧
    (∀ e, fs (default_input_path day) = Except.error e →
        default_get_input fs day = Except.error (SolutionError.PuzzleInput e)) ∧
    (∀ s, fs (default_input_path day) = Except.ok s →
        default_get_input fs day = Except.ok s) := by
  obtain ⟨h1, h2, h3⟩ := pad2_ok day hday
  refine ⟨rfl, h1, h2, h3, ?_, ?_⟩ <;> intro x hx <;> simp [default_get_input, hx]

/-- Filesystem on which every read fails (scenario of a missing input file). -/
def missingFs : String → Except String String :=
  fun _ => Except.error "io"

/-- Witness for C4: with a filesystem on which every read fails, day 7 resolves
to the path `inputs/DAY_07.txt` and the default `get_input` returns
`PuzzleInput` wrapping the I/O error. -/
theorem default_get_input_spec_w :
    default_get_input missingFs 7 = Except.error (SolutionError.PuzzleInput "io") ∧
    default_input_path 7 = "inputs/DAY_07.txt" :=
  ⟨(default_get_input_spec missingFs 7 (by decide)).2.2.2.2.1 "io" rfl, rfl⟩

/-- Counterexample for C5: with the `Echo` solution, whose acquired input is
`" a "` (surrounded by whitespace), both `run` and `run_par` hand `parse` the
string `" a "` verbatim, which still carries its surrounding whitespace
(trimming would have produced `"a"`); the untrimmed string is even observable
in the answers.  So no runner variant trims before parsing. -/
theorem run_untrimmed_cex :
    (run echoSol 0 0 0).2 = [Event.input, Event.parse " a ", Event.part1, Event.part2] ∧
    (run_par echoSol 0 (WorkerOutcome.completes 0) (WorkerOutcome.completes 0)).2 =
      [Event.input, Event.parse " a ", Event.part1, Event.part2] ∧
    (run echoSol 0 0 0).1 =
      Except.ok { title := "Echo", day := 1, part1 := some " a ", part2 := some " a ",
                  parse_duration := 0, part1_duration := 0, part2_duration := 0 } ∧
    " a ".toList = [' ', 'a', ' '] ∧ Char.isWhitespace ' ' = true :=
  ⟨rfl, rfl, rfl, by decide, by decide⟩

/-- Claim C5 as amended: neither runner variant trims — whatever string
`get_input` produces is passed to `parse` verbatim by both `run` and
`run_par`. -/
theorem runners_pass_input_verbatim {Input P1 P2 : Type} (S : Solution Input P1 P2)
    (raw : String) (hg : S.get_input = Except.ok raw) (tp t1 t2 : Nat)
    (o1 o2 : WorkerOutcome) :
    Event.parse raw ∈ (run S tp t1 t2).2 ∧ Event.parse raw ∈ (run_par S tp o1 o2).2 := by
  cases hp : S.parse raw <;> constructor <;> simp [run, run_par, hg, hp]

/-- Witness for C5 (amended): the `Echo` solution's whitespace-carrying input
`" a "` is handed verbatim to `parse` by both runners. -/
theorem runners_pass_input_verbatim_w :
    Event.parse " a " ∈ (run echoSol 0 0 0).2 ∧
    Event.parse " a " ∈ (run_par echoSol 0 WorkerOutcome.panic WorkerOutcome.panic).2 :=
  runners_pass_input_verbatim echoSol " a " rfl 0 0 0 WorkerOutcome.panic WorkerOutcome.panic

/-- Counterexample for C7: on the sample solution whose `get_input` fails, an
invocation of either runner invokes `parse` zero times — not exactly once. -/
theorem single_parse_cex :
    parse_count (run noInputSol 0 0 0).2 = 0 ∧
    parse_count (run_par noInputSol 0 (WorkerOutcome.completes 0)
      (WorkerOutcome.completes 0)).2 = 0 ∧
    (parse_count (run noInputSol 0 0 0).2 == 1) = false :=
  ⟨rfl, rfl, rfl⟩

/-- Claim C7 as amended: per invocation of either runner, `parse` is invoked
at most once, and exactly once whenever input acquisition succeeds. -/
theorem single_parse_amended {Input P1 P2 : Type} (S : Solution Input P1 P2)
    (tp t1 t2 : Nat) (o1 o2 : WorkerOutcome) :
    parse_count (run S tp t1 t2).2 ≤ 1 ∧
    parse_count (run_par S tp o1 o2).2 ≤ 1 ∧
    (∀ raw, S.get_input = Except.ok raw →
        parse_count (run S tp t1 t2).2 = 1 ∧ parse_count (run_par S tp o1 o2).2 = 1) := by
  have key : ∀ raw, S.get_input = Except.ok raw →
      parse_count (run S tp t1 t2).2 = 1 ∧ parse_count (run_par S tp o1 o2).2 = 1 := by
    intro raw hg
    cases hp : S.parse raw <;> constructor <;>
      simp [run, run_par, hg, hp, parse_count]
  cases hg : S.get_input with
  | error e =>
    refine ⟨?_, ?_, fun raw h => ?_⟩
    · simp [run, hg, parse_count]
    · simp [run_par, hg, parse_count]
    · exact Except.noConfusion h
  | ok raw =>
    obtain ⟨k1, k2⟩ := key raw hg
    exact ⟨le_of_eq k1, le_of_eq k2, fun raw2 h2 => key raw hg⟩

/-- Witness for C7 (amended): the `Echo` solution, whose input acquisition
succeeds, parses exactly once under either runner. -/
theorem single_parse_amended_w :
    parse_count (run echoSol 0 0 0).2 = 1 ∧
    parse_count (run_par echoSol 0 WorkerOutcome.panic WorkerOutcome.panic).2 = 1 :=
  (single_parse_amended echoSol 0 0 0 WorkerOutcome.panic WorkerOutcome.panic).2.2 " a " rfl

/-- Counterexample for C8: the `Result<T> = Result<T, SolutionError>` aliases
let an implementation's own `parse` return `Err(SolutionError::Run)`; `run`,
`test_part1` and `test_part2` then propagate it, so they can return the
execution-failure kind. -/
theorem run_returns_run_cex :
    (run runErrSol 0 0 0).1 = Except.error SolutionError.Run ∧
    (test_part1 runErrSol "" 0 0).1 = Except.error SolutionError.Run ∧
    (test_part2 runErrSol "" 0 0).1 = Except.error SolutionError.Run :=
  ⟨rfl, rfl, rfl⟩

/-- Claim C8 as amended: `run`, `test_part1` and `test_part2` never themselves
produce `SolutionError.Run`; for every implementation conforming to the
contract — `parse` fails only with `ParseError` and `get_input` only with
`PuzzleInput` — they never return `SolutionError.Run` on any input. -/
theorem run_never_produces_run {Input P1 P2 : Type} (S : Solution Input P1 P2)
    (hp : ∀ raw e, S.parse raw = Except.error e → e = SolutionError.ParseError)
    (hg : ∀ e, S.get_input = Except.error e → ∃ io, e = SolutionError.PuzzleInput io) :
    ∀ tp t1 t2 raw,
      (run S tp t1 t2).1 ≠ Except.error SolutionError.Run ∧
      (test_part1 S raw tp t1).1 ≠ Except.error SolutionError.Run ∧
      (test_part2 S raw tp t2).1 ≠ Except.error SolutionError.Run := by
  intro tp t1 t2 raw
  refine ⟨?_, ?_, ?_⟩
  · cases hgi : S.get_input with
    | error e =>
      obtain ⟨io, rfl⟩ := hg e hgi
      simp [run, hgi]
    | ok r =>
      cases hpr : S.parse r with
      | error e =>
        have he := hp r e hpr
        subst he
        simp [run, hgi, hpr]
      | ok inp => simp [run, hgi, hpr]
  · cases hpr : S.parse raw with
    | error e =>
      have he := hp raw e hpr
      subst he
      simp [test_part1, hpr]
    | ok inp => simp [test_part1, hpr]
  · cases hpr : S.parse raw with
    | error e =>
      have he := hp raw e hpr
      subst he
      simp [test_part2, hpr]
    | ok inp => simp [test_part2, hpr]

/-- Counterexample for C6: on the concrete aggregate with `part1 = none` and
`part2 = some 7`, the `Display` rendering falls into the catch-all arm: it
shows only the heading and the parse duration.  The present `part2` answer is
not rendered — no `Part 2` line and no occurrence of the answer `7` at all —
contradicting the claim that a present `part2` answer always gets a line. -/
theorem display_drops_part2_cex :
    sampleOnly2.part2 = some 7 ∧
    display Nat.repr Nat.repr Nat.repr sampleOnly2 =
      "=============\n Day 01: \"T\"\n=============\n  3\tParsing time" ∧
    strHasSub (display Nat.repr Nat.repr Nat.repr sampleOnly2) "Part 2" = false ∧
    strHasSub (display Nat.repr Nat.repr Nat.repr sampleOnly2) "7" = false :=
  ⟨rfl, by decide, by decide, by decide⟩

/-- Claim C6 as amended: the rendering always opens with the heading (framed
line with the zero-padded day number and the debug-quoted title).  When both
answers are present, each gets its quoted line and the rendered total duration
is exactly the sum `part1 + part2 + parse` of the three components rendered
alongside it.  When only `part1` is present, it gets its line, no `Part 2`
line appears, and the rendered total is exactly the sum `part1 + parse` of
the two components rendered alongside it.  When `part1` is absent nothing but
the heading and the parse duration is rendered — in particular a present
`part2` answer is dropped and no total line appears. -/
theorem display_spec {P1 P2 : Type} (s1 : P1 → String) (s2 : P2 → String)
    (fd : Nat → String) (r : SolutionResult P1 P2) :
    (∀ a b, r.part1 = some a → r.part2 = some b →
        display s1 s2 fd r =
          display_heading r ++ "\nPart 1: \x27" ++ s1 a ++ "\x27\nPart 2: \x27" ++ s2 b ++
            "\x27\n----\nTime1:\t\t" ++ fd r.part1_duration ++
            "\nTime2:\t\t" ++ fd r.part2_duration ++
            "\nParse Time:\t" ++ fd r.parse_duration ++
            "\nTotal Time:\t" ++ fd (r.part1_duration + r.part2_duration + r.parse_duration)) ∧
    (∀ a, r.part1 = some a → r.part2 = none →
        display s1 s2 fd r =
          display_heading r ++ "\nPart 1: \x27" ++ s1 a ++
            "\x27\n----\nTime1:\t\t" ++ fd r.part1_duration ++
            "\nParse Time:\t" ++ fd r.parse_duration ++
            "\nTotal Time:\t" ++ fd (r.part1_duration + r.parse_duration)) ∧
    (r.part1 = none →
        display s1 s2 fd r =
          display_heading r ++ "\n  " ++ fd r.parse_duration ++ "\tParsing time") := by
  refine ⟨fun a b h1 h2 => ?_, fun a h1 h2 => ?_, fun h1 => ?_⟩ <;>
    simp [display, *]

/-- Witness for C6 (amended): the both-answers-present aggregate renders both
quoted answer lines and a total of `20 + 30 + 10`. -/
theorem display_spec_w :
    display Nat.repr Nat.repr Nat.repr sampleBoth =
      display_heading sampleBoth ++ "\nPart 1: \x27" ++ Nat.repr 3 ++ "\x27\nPart 2: \x27" ++
        Nat.repr 4 ++ "\x27\n----\nTime1:\t\t" ++ Nat.repr 20 ++
        "\nTime2:\t\t" ++ Nat.repr 30 ++ "\nParse Time:\t" ++ Nat.repr 10 ++
        "\nTotal Time:\t" ++ Nat.repr (20 + 30 + 10) :=
  (display_spec Nat.repr Nat.repr Nat.repr sampleBoth).1 3 4 rfl rfl

/-- Claim C10: `Day01::parse` is total and never fails: on every input string
it returns `Ok` with the integer values of exactly the lines that parse as
`usize`, silently discarding malformed lines; concretely, the empty input
yields `Ok([])` and an input mixing numeric, non-numeric, `+`-signed and
negative lines keeps only the `usize`-parsable ones. -/
theorem day01_parse_total :
    (∀ s, day01_parse s = Except.ok ((rustLines s).filterMap parseUsize) ∧
        (day01_parse s).isOk = true) ∧
    day01_parse "" = Except.ok [] ∧
    day01_parse "10\nx\n+7\n-3\n999" = Except.ok [10, 7, 999] :=
  ⟨fun _ => ⟨rfl, rfl⟩, rfl, rfl⟩

/-- Witness for C8 (amended): the sample solution whose `parse` fails with
`ParseError` (and whose `get_input` succeeds) conforms to the contract, and
none of the three sequential entry points returns `SolutionError.Run`. -/
theorem run_never_produces_run_w :
    (run parseFailSol 0 0 0).1 ≠ Except.error SolutionError.Run ∧
    (test_part1 parseFailSol "y" 0 0).1 ≠ Except.error SolutionError.Run ∧
    (test_part2 parseFailSol "y" 0 0).1 ≠ Except.error SolutionError.Run :=
  run_never_produces_run parseFailSol
    (fun raw e h => by
      simp [parseFailSol] at h
      exact h.symm)
    (fun e h => by
      simp [parseFailSol] at h)
    0 0 0 "y"

end AocRunner
